import Mathlib

/-!
# dynamic-graph-python: the entity boundary of `src/entity-py.cc`

A shallow embedding of the eight boundary functions of namespace
`dynamicgraph::python::entity` (`create`, `getName`, `getSignal`, `listSignals`,
`executeCommand`, `listCommands`, `getCommandDocstring`, `display`).

Conventions of the embedding

* A boundary function takes the world before the call and the items of the
  Python argument tuple, and yields an `Outcome` together with the world after
  the call.  `Outcome.returns none` is the C return value `NULL`.
* A C++ exception that no handler of the function catches leaves the function:
  `Outcome.throws`.  Dereferencing a null or dangling pointer is
  `Outcome.undefined`.
* `std::string` and `char*` are `String` (texts without embedded NUL), so
  `c_str()` is the identity.
* `unsigned int` is 32 bits wide, `Py_ssize_t` and `size_t` are wider: in
  `executeCommand` the tuple size is narrowed modulo `2 ^ 32` where line 197
  stores it in an `unsigned int`.  A `Command` declares fewer than `2 ^ 32`
  parameters (a field of `Command`), so the loop index of `executeCommand` does
  not wrap.  The counters of `listSignals` and `listCommands` run over the
  entries of a map of the entity and are plain `Nat`.
* Calls into the collaborators (factory, value bridge, command binding and
  execution) are recorded in `World.log`, in call order.
-/

namespace DynamicGraphPython

/-! ## Data model -/

/-- A machine address; `0` is the null pointer. -/
abbrev Addr := Nat

/-- Python objects that reach the boundary.  `cobject` is a `PyCObject` wrapping
a `void*`; floating point payloads are kept as bit patterns, the boundary only
moves them. -/
inductive PyObject where
  | none
  | bool (b : Bool)
  | int (i : Int)
  | float (bits : Nat)
  | str (s : String)
  | tuple (items : List PyObject)
  | cobject (ptr : Addr)

/-- The exception classes the boundary records: `PyExc_TypeError` and the
module's own `error` object (`extern PyObject* error`). -/
inductive PyExcType where
  | TypeError
  | error
  deriving DecidableEq

/-- The Python error indicator once set: exception class and message. -/
structure PyErr where
  type : PyExcType
  message : String
  deriving DecidableEq

/-- Modelled from the spec: `Value::Type` (dynamic-graph/value.h is not among
the source files), the closed set of kinds listed for `Value`: boolean,
integers, floating point, string, numeric vector, numeric matrix. -/
inductive ValueType where
  | NONE
  | BOOL
  | UNSIGNED
  | INT
  | FLOAT
  | DOUBLE
  | STRING
  | VECTOR
  | MATRIX
  deriving DecidableEq

/-- Modelled from the spec: `command::Value` (dynamic-graph/value.h is not among
the source files), a tagged union whose tag and payload are consistent. -/
inductive Value where
  | none
  | bool (b : Bool)
  | unsigned (n : Nat)
  | int (i : Int)
  | float (bits : Nat)
  | double (bits : Nat)
  | string (s : String)
  | vector (xs : List Nat)
  | matrix (rows : List (List Nat))
  deriving DecidableEq

/-- The tag of a value, `Value::type()`. -/
def Value.type : Value → ValueType
  | .none => .NONE
  | .bool _ => .BOOL
  | .unsigned _ => .UNSIGNED
  | .int _ => .INT
  | .float _ => .FLOAT
  | .double _ => .DOUBLE
  | .string _ => .STRING
  | .vector _ => .VECTOR
  | .matrix _ => .MATRIX

/-- Error codes of `ExceptionPython`; the boundary itself uses
`CLASS_INCONSISTENT`. -/
inductive ErrorCodeEnum where
  | GENERIC
  | VALUE_PARSING
  | CLASS_INCONSISTENT
  deriving DecidableEq

/-- C++ exceptions, by the class a handler can match on: `ExceptionPython`
derives from `ExceptionAbstract`, which derives from `std::exception`; `foreign`
is anything not derived from `std::exception`. -/
inductive CppException where
  | exceptionPython (code : ErrorCodeEnum) (msg : String)
  | exceptionAbstract (msg : String)
  | stdException (msg : String)
  | foreign
  deriving DecidableEq

/-- Whether `catch (ExceptionAbstract&)` matches. -/
def CppException.isAbstract : CppException → Bool
  | .exceptionPython _ _ => true
  | .exceptionAbstract _ => true
  | _ => false

/-- Whether `catch (std::exception&)` matches. -/
def CppException.isStd : CppException → Bool
  | .foreign => false
  | _ => true

/-- The text of `what()` (for `ExceptionAbstract` also of `getStringMessage()`);
an exception outside `std::exception` carries none. -/
def CppException.what : CppException → String
  | .exceptionPython _ msg => msg
  | .exceptionAbstract msg => msg
  | .stdException msg => msg
  | .foreign => ""

/-- A `std::map` keyed by `std::string`: its entries in iteration order, which
is strictly increasing key order (keys compared character by character). -/
structure StdMap (β : Type) where
  entries : List (String × β)
  ordered : (entries.map Prod.fst).Pairwise (fun a b => a.data < b.data)

/-- The keys in iteration order. -/
def StdMap.keys {β : Type} (m : StdMap β) : List String :=
  m.entries.map Prod.fst

/-- The C++ `size()`. -/
def StdMap.size {β : Type} (m : StdMap β) : Nat :=
  m.entries.length

/-- The C++ `count(key)`: the number of entries with that key. -/
def StdMap.count {β : Type} (m : StdMap β) (key : String) : Nat :=
  m.entries.countP (fun it => it.1 == key)

/-- The C++ `find(key)`, as the mapped value when there is one. -/
def StdMap.find? {β : Type} (m : StdMap β) (key : String) : Option β :=
  m.entries.lookup key

/-- The value `m[key]` of a map of pointers: the mapped pointer, or the
value-initialised (null) pointer that `operator[]` inserts for an absent key.
Every map subscripted at the boundary is a function-local copy that is not read
again, so the insertion itself is not represented. -/
def StdMap.subscript (m : StdMap Addr) (key : String) : Addr :=
  (m.entries.lookup key).getD 0

/-- Placing an entry in key order; an entry already under that key is kept, as
by the C++ `insert`. -/
def insertEntry {β : Type} (key : String) (value : β) : List (String × β) → List (String × β)
  | [] => [(key, value)]
  | it :: rest =>
    if key.data < it.1.data then (key, value) :: it :: rest
    else if it.1.data < key.data then it :: insertEntry key value rest
    else it :: rest

/-- The C++ `insert` of a `std::map`; the entries stay in strictly increasing key
order. -/
def StdMap.insert {β : Type} (m : StdMap β) (key : String) (value : β) : StdMap β :=
  ⟨insertEntry key value m.entries, by
    have aux : ∀ l : List (String × β),
        (l.map Prod.fst).Pairwise (fun a b => a.data < b.data) →
        ((insertEntry key value l).map Prod.fst).Pairwise (fun a b => a.data < b.data) ∧
          ∀ k ∈ (insertEntry key value l).map Prod.fst, k = key ∨ k ∈ l.map Prod.fst := by
      intro l
      induction l with
      | nil => intro _; simp [insertEntry]
      | cons it rest ih =>
        intro h
        simp only [List.map_cons, List.pairwise_cons] at h
        obtain ⟨ihord, ihmem⟩ := ih h.2
        unfold insertEntry
        split
        · rename_i hlt
          refine ⟨?_, ?_⟩
          · simp only [List.map_cons, List.pairwise_cons, List.mem_cons]
            refine ⟨?_, h.1, h.2⟩
            intro a ha
            rcases ha with rfl | ha
            · exact hlt
            · exact lt_trans hlt (h.1 a ha)
          · intro k hk
            simp only [List.map_cons, List.mem_cons] at hk ⊢
            exact hk
        · split
          · rename_i hlt
            refine ⟨?_, ?_⟩
            · simp only [List.map_cons, List.pairwise_cons]
              refine ⟨?_, ihord⟩
              intro a ha
              rcases ihmem a ha with rfl | ha
              · exact hlt
              · exact h.1 a ha
            · intro k hk
              simp only [List.map_cons, List.mem_cons] at hk ⊢
              rcases hk with hk | hk
              · exact Or.inr (Or.inl hk)
              · rcases ihmem k hk with hk | hk
                · exact Or.inl hk
                · exact Or.inr (Or.inr hk)
          · refine ⟨?_, ?_⟩
            · simp only [List.map_cons, List.pairwise_cons]; exact h
            · intro k hk; exact Or.inr hk
    exact (aux m.entries m.ordered).1⟩

/-- The empty map. -/
def StdMap.empty {β : Type} : StdMap β :=
  ⟨[], List.Pairwise.nil⟩

/-- A `command::Command` object: declared parameter types (fewer than `2 ^ 32`
of them), docstring, the parameter values currently bound (`valueVector_`), and
the action `doExecute`, which reads the bound values, may change the state `σ`
of the object graph, and returns a value or throws. -/
structure Command (σ : Type) where
  valueTypes : List ValueType
  declared : valueTypes.length < 2 ^ 32
  docstring : String
  valueVector : List Value
  doExecute : List Value → σ → Except CppException Value × σ

/-- An `Entity` object as the boundary reads it.  The maps hold pointers to the
signals and commands. -/
structure Entity where
  name : String
  className : String
  signalMap : StdMap Addr
  commandMap : StdMap Addr
  display : String

/-- Calls into the collaborators, as recorded in the log. -/
inductive Event where
  | newEntity (className instanceName : String)
  | pythonToValue (iParam : Nat) (object : PyObject) (valueType : ValueType)
  | setParameterValues (command : Addr) (values : List Value)
  | execute (command : Addr)

/-- The process state around a boundary call: the object graph's own state
`ext`, the live `Entity` and `Command` objects by address, the pool `g_pool`
(instance name to entity), the Python error indicator and the call log. -/
structure World (σ : Type) where
  ext : σ
  entities : Addr → Option Entity
  commands : Addr → Option (Command σ)
  pool : StdMap Addr
  pyErr : Option PyErr
  log : List Event

/-- What a boundary function does to its caller. -/
inductive Outcome where
  | returns (result : Option PyObject)
  | throws (exc : CppException)
  | undefined

/-- Reading the object behind a pointer; nothing lives at the null address. -/
def deref {α : Type} (heap : Addr → Option α) (p : Addr) : Option α :=
  if p = 0 then none else heap p

/-- The C API `PyErr_SetString`. -/
def World.PyErr_SetString {σ : Type} (w : World σ) (type : PyExcType) (message : String) :
    World σ :=
  { w with pyErr := some ⟨type, message⟩ }

/-- Appending one call to the log. -/
def World.record {σ : Type} (w : World σ) (ev : Event) : World σ :=
  { w with log := w.log ++ [ev] }

/-- Modelled from the spec: the value bridge of convert-dg-to-py.hh (not among
the source files).  `pythonToValue` converts a dynamic value for an expected
type and fails with an `ExceptionAbstract`-derived exception, of which the
`what()` text is kept; `valueToPython` is total. -/
structure Bridge where
  pythonToValue : PyObject → ValueType → Except String Value
  valueToPython : Value → PyObject

/-- The factory call `g_factory.newEntity(className, instanceName)`: it may
change the world (it mints and registers the entity) and returns the new
entity's address or throws. -/
abbrev Factory (σ : Type) := String → String → World σ → Except CppException Addr × World σ

/-! ## The Python C API calls the boundary uses -/

/-- The type name Python prints for an object in a `TypeError`. -/
def PyObject.typeName : PyObject → String
  | .none => "None"
  | .bool _ => "bool"
  | .int _ => "int"
  | .float _ => "float"
  | .str _ => "str"
  | .tuple _ => "tuple"
  | .cobject _ => "PyCObject"

/-- The message of the `TypeError` that `PyArg_ParseTuple` sets for a tuple of
the wrong length. -/
def arityMessage (expected given : Nat) : String :=
  "function takes exactly " ++ toString expected ++
    (if expected = 1 then " argument (" else " arguments (") ++ toString given ++ " given)"

/-- The message of the `TypeError` that `PyArg_ParseTuple` sets when format unit
`s` meets an object that is not a string. -/
def stringMessage (position : Nat) (object : PyObject) : String :=
  "argument " ++ toString position ++ " must be string, not " ++ object.typeName

/-- The C API `PyArg_ParseTuple(args, "O", &object)`: the error is the message of
the `TypeError` it sets. -/
def PyArg_ParseTuple_O (args : List PyObject) : Except String PyObject :=
  match args with
  | [object] => .ok object
  | _ => .error (arityMessage 1 args.length)

/-- The C API `PyArg_ParseTuple(args, "ss", &className, &instanceName)`. -/
def PyArg_ParseTuple_ss (args : List PyObject) : Except String (String × String) :=
  match args with
  | [.str className, .str instanceName] => .ok (className, instanceName)
  | [.str _, other] => .error (stringMessage 2 other)
  | [other, _] => .error (stringMessage 1 other)
  | _ => .error (arityMessage 2 args.length)

/-- The C API `PyArg_ParseTuple(args, "Os", &object, &name)`. -/
def PyArg_ParseTuple_Os (args : List PyObject) : Except String (PyObject × String) :=
  match args with
  | [object, .str name] => .ok (object, name)
  | [_, other] => .error (stringMessage 2 other)
  | _ => .error (arityMessage 2 args.length)

/-- The C API `PyArg_ParseTuple(args, "OsO", &object, &commandName, &argTuple)`. -/
def PyArg_ParseTuple_OsO (args : List PyObject) :
    Except String (PyObject × String × PyObject) :=
  match args with
  | [object, .str commandName, argTuple] => .ok (object, commandName, argTuple)
  | [_, other, _] => .error (stringMessage 2 other)
  | _ => .error (arityMessage 3 args.length)

/-- The C API `PyTuple_New(n)`: a tuple of `n` slots, all still `NULL`. -/
def PyTuple_New (n : Nat) : List (Option PyObject) :=
  List.replicate n none

/-- The C API `PyTuple_SET_ITEM(tuple, pos, item)`. -/
def PyTuple_SET_ITEM (tuple : List (Option PyObject)) (pos : Nat) (item : PyObject) :
    List (Option PyObject) :=
  tuple.set pos (some item)

/-- The items of a tuple whose slots have all been filled; `none` while a slot
is still `NULL`. -/
def filledItems : List (Option PyObject) → Option (List PyObject)
  | [] => some []
  | none :: _ => none
  | some item :: rest => (filledItems rest).map (fun items => item :: items)

/-- Handing a freshly built tuple back to Python; a tuple with a `NULL` slot is
not a valid object. -/
def returnTuple {σ : Type} (w : World σ) (tuple : List (Option PyObject)) :
    Outcome × World σ :=
  match filledItems tuple with
  | some items => (.returns (some (.tuple items)), w)
  | none => (.undefined, w)

/-! ## The dynamic-graph calls the boundary uses -/

/-- The pool call `g_pool.existEntity(name, obj)`: the entity pointer when the name
is registered. -/
def existEntity {σ : Type} (w : World σ) (name : String) : Option Addr :=
  w.pool.find? name

/-- Modelled from the spec: `Entity::getSignal(name)` (dynamic-graph, not among
the source files): exact-name lookup in the signal mapping, failing with an
`ExceptionAbstract`-derived exception whose message includes the entity name
and the attempted signal name. -/
def Entity.getSignal (entity : Entity) (name : String) : Except CppException Addr :=
  match entity.signalMap.find? name with
  | some signal => .ok signal
  | none => .error (.exceptionAbstract
      ("Entity " ++ entity.name ++ ": the requested signal is not registered: " ++ name))

/-- Modelled from the spec: `Command::setParameterValues` (dynamic-graph, not
among the source files): the supplied values must match the declared type
sequence in length and, slot by slot, in type; otherwise it throws and binds
nothing. -/
def Command.setParameterValues {σ : Type} (command : Command σ) (values : List Value) :
    Except CppException (Command σ) :=
  if values.length ≠ command.valueTypes.length then
    .error (.exceptionAbstract "wrong number of parameters")
  else if values.map Value.type ≠ command.valueTypes then
    .error (.exceptionAbstract "argument is of wrong type")
  else
    .ok { command with valueVector := values }

/-- The C++ `Command::execute()`: runs the action on the bound values. -/
def Command.execute {σ : Type} (command : Command σ) (ext : σ) :
    Except CppException Value × σ :=
  command.doExecute command.valueVector ext

/-- Writing a `Command` object back at its address. -/
def World.storeCommand {σ : Type} (w : World σ) (p : Addr) (command : Command σ) : World σ :=
  { w with commands := fun a => if a = p then some command else w.commands a }

/-! ## The boundary functions -/

/-- The boundary function `create` (lines 46-75). -/
def create {σ : Type} (newEntity : Factory σ) (w : World σ) (args : List PyObject) :
    Outcome × World σ :=
  match PyArg_ParseTuple_ss args with
  | .error msg => (.returns none, w.PyErr_SetString .TypeError msg)
  | .ok (className, instanceName) =>
    match existEntity w instanceName with
    | some obj =>
      match deref w.entities obj with
      | none => (.undefined, w)
      | some entity =>
        if entity.className ≠ className then
          (.throws (.exceptionPython .CLASS_INCONSISTENT
            "Found an object with the same name but of different class."), w)
        else
          (.returns (some (.cobject obj)), w)
    | none =>
      match newEntity className instanceName (w.record (.newEntity className instanceName)) with
      | (.ok obj, w') => (.returns (some (.cobject obj)), w')
      | (.error exc, w') =>
        if exc.isStd then (.returns none, w'.PyErr_SetString .error exc.what)
        else (.throws exc, w')

/-- The boundary function `getName` (lines 80-104); `Entity::getName` returns
the stored name and does not throw. -/
def getName {σ : Type} (w : World σ) (args : List PyObject) : Outcome × World σ :=
  match PyArg_ParseTuple_O args with
  | .error msg => (.returns none, w.PyErr_SetString .TypeError msg)
  | .ok object =>
    match object with
    | .cobject pointer =>
      match deref w.entities pointer with
      | none => (.undefined, w)
      | some entity => (.returns (some (.str entity.name)), w)
    | _ => (.returns none, w.PyErr_SetString .TypeError "function takes a PyCObject as argument")

/-- The boundary function `getSignal` (lines 109-137). -/
def getSignal {σ : Type} (w : World σ) (args : List PyObject) : Outcome × World σ :=
  match PyArg_ParseTuple_Os args with
  | .error msg => (.returns none, w.PyErr_SetString .TypeError msg)
  | .ok (object, name) =>
    match object with
    | .cobject pointer =>
      match deref w.entities pointer with
      | none => (.undefined, w)
      | some entity =>
        match entity.getSignal name with
        | .ok signal => (.returns (some (.cobject signal)), w)
        | .error exc =>
          if exc.isAbstract then (.returns none, w.PyErr_SetString .error exc.what)
          else (.throws exc, w)
    | _ => (.returns none, w.PyErr_SetString .TypeError "function takes a PyCObject as argument")

/-- The loop of `listSignals` (lines 159-165): one `PyCObject` per entry, stored
at the running `count`. -/
def fillSignals (result : List (Option PyObject)) (count : Nat) :
    List (String × Addr) → List (Option PyObject)
  | [] => result
  | it :: rest => fillSignals (PyTuple_SET_ITEM result count (.cobject it.2)) (count + 1) rest

/-- The boundary function `listSignals` (lines 139-171): a first argument that
is not a `PyCObject` returns `NULL` at line 148, and no error is set there. -/
def listSignals {σ : Type} (w : World σ) (args : List PyObject) : Outcome × World σ :=
  match PyArg_ParseTuple_O args with
  | .error msg => (.returns none, w.PyErr_SetString .TypeError msg)
  | .ok object =>
    match object with
    | .cobject pointer =>
      match deref w.entities pointer with
      | none => (.undefined, w)
      | some entity =>
        let signalMap := entity.signalMap
        let result := PyTuple_New signalMap.size
        returnTuple w (fillSignals result 0 signalMap.entries)
    | _ => (.returns none, w)

/-- How the argument loop of `executeCommand` ends: every argument converted
(`done`, with the value vector built), or a conversion failed and the handler
of lines 226-232 composed its message (`failed`), or an index left the tuple or
the type vector (`outOfRange`). -/
inductive LoopResult where
  | done (valueVector : List Value)
  | failed (message : String)
  | outOfRange

/-- The argument loop of `executeCommand` (lines 220-233), with `remaining`
iterations to go from index `iParam`: each round reads item and declared type
at `iParam`, calls `pythonToValue` (logged) and pushes the value, or stops at
the first failure with the message naming `iParam + 1`. -/
def parseArguments (B : Bridge) (argTuple : List PyObject) (typeVector : List ValueType) :
    (remaining iParam : Nat) → List Value → List Event → LoopResult × List Event
  | 0, _, valueVector, log => (.done valueVector, log)
  | remaining + 1, iParam, valueVector, log =>
    match argTuple[iParam]?, typeVector[iParam]? with
    | some pyValue, some valueType =>
      match B.pythonToValue pyValue valueType with
      | .ok value =>
        parseArguments B argTuple typeVector remaining (iParam + 1) (valueVector ++ [value])
          (log ++ [.pythonToValue iParam pyValue valueType])
      | .error what =>
        (.failed ("Error while parsing argument " ++ toString (iParam + 1) ++ ": " ++ what ++ "."),
          log ++ [.pythonToValue iParam pyValue valueType])
    | _, _ => (.outOfRange, log)

/-- The tail of `executeCommand` (lines 234-242): bind the value vector (outside
any handler, so a binding failure leaves the function as an exception), then
execute inside the handler for `std::exception` and convert the result. -/
def bindAndExecute {σ : Type} (B : Bridge) (w : World σ) (command : Addr) (cmd : Command σ)
    (valueVector : List Value) : Outcome × World σ :=
  match cmd.setParameterValues valueVector with
  | .error exc => (.throws exc, w.record (.setParameterValues command valueVector))
  | .ok bound =>
    let w1 := (w.record (.setParameterValues command valueVector)).storeCommand command bound
    let w2 := w1.record (.execute command)
    match bound.execute w2.ext with
    | (.ok result, ext) => (.returns (some (B.valueToPython result)), { w2 with ext := ext })
    | (.error exc, ext) =>
      if exc.isStd then
        (.returns none, ({ w2 with ext := ext }).PyErr_SetString .error exc.what)
      else
        (.throws exc, { w2 with ext := ext })

/-- The boundary function `executeCommand` (lines 173-243).  `size` is the
`unsigned int` of line 197: the tuple length modulo `2 ^ 32`; it is what the
arity test compares and prints, and the bound of the argument loop. -/
def executeCommand {σ : Type} (B : Bridge) (w : World σ) (args : List PyObject) :
    Outcome × World σ :=
  match PyArg_ParseTuple_OsO args with
  | .error msg => (.returns none, w.PyErr_SetString .TypeError msg)
  | .ok (object, commandName, argTuple) =>
    match object with
    | .cobject pointer =>
      match argTuple with
      | .tuple items =>
        let size := items.length % 2 ^ 32
        match deref w.entities pointer with
        | none => (.undefined, w)
        | some entity =>
          let commandMap := entity.commandMap
          if commandMap.count commandName ≠ 1 then
            (.returns none, w.PyErr_SetString .error
              ("command " ++ commandName ++ " is not referenced in Entity " ++ entity.name))
          else
            let command := commandMap.subscript commandName
            match deref w.commands command with
            | none => (.undefined, w)
            | some cmd =>
              let typeVector := cmd.valueTypes
              if size ≠ typeVector.length then
                (.returns none, w.PyErr_SetString .error
                  ("command takes " ++ toString typeVector.length ++ " parameters, " ++
                    toString size ++ " given."))
              else
                match parseArguments B items typeVector size 0 [] w.log with
                | (.failed message, log) =>
                  (.returns none, ({ w with log := log }).PyErr_SetString .error message)
                | (.outOfRange, log) => (.undefined, { w with log := log })
                | (.done valueVector, log) =>
                  bindAndExecute B { w with log := log } command cmd valueVector
      | _ => (.returns none, w.PyErr_SetString .TypeError "third argument is not a tuple")
    | _ => (.returns none, w.PyErr_SetString .TypeError "first argument is not an object")

/-- The loop of `listCommands` (lines 266-272): one Python string per entry,
built from the key and stored at the running `count`. -/
def fillCommands (result : List (Option PyObject)) (count : Nat) :
    List (String × Addr) → List (Option PyObject)
  | [] => result
  | it :: rest => fillCommands (PyTuple_SET_ITEM result count (.str it.1)) (count + 1) rest

/-- The boundary function `listCommands` (lines 245-274). -/
def listCommands {σ : Type} (w : World σ) (args : List PyObject) : Outcome × World σ :=
  match PyArg_ParseTuple_O args with
  | .error msg => (.returns none, w.PyErr_SetString .TypeError msg)
  | .ok object =>
    match object with
    | .cobject pointer =>
      match deref w.entities pointer with
      | none => (.undefined, w)
      | some entity =>
        let map := entity.commandMap
        let nbCommands := map.size
        let result := PyTuple_New nbCommands
        returnTuple w (fillCommands result 0 map.entries)
    | _ => (.returns none, w.PyErr_SetString .TypeError "function takes a PyCObject as argument")

/-- The boundary function `getCommandDocstring` (lines 275-300): the command
pointer is read with `map[commandName]` and dereferenced at line 298 with no
test in between; `operator[]` does not throw, so the handler of lines 295-297
never runs. -/
def getCommandDocstring {σ : Type} (w : World σ) (args : List PyObject) : Outcome × World σ :=
  match PyArg_ParseTuple_Os args with
  | .error msg => (.returns none, w.PyErr_SetString .TypeError msg)
  | .ok (object, commandName) =>
    match object with
    | .cobject pointer =>
      match deref w.entities pointer with
      | none => (.undefined, w)
      | some entity =>
        let map := entity.commandMap
        let command := map.subscript commandName
        match deref w.commands command with
        | none => (.undefined, w)
        | some cmd => (.returns (some (.str cmd.docstring)), w)
    | _ => (.returns none, w.PyErr_SetString .error "first argument is not an object")

/-- The boundary function `display` (lines 302-321): a failed parse and a
non-`PyCObject` argument share one branch, which sets the module error. -/
def display {σ : Type} (w : World σ) (args : List PyObject) : Outcome × World σ :=
  match PyArg_ParseTuple_O args with
  | .error _ => (.returns none, w.PyErr_SetString .error "first argument is not an object")
  | .ok object =>
    match object with
    | .cobject pointer =>
      match deref w.entities pointer with
      | none => (.undefined, w)
      | some entity => (.returns (some (.str entity.display)), w)
    | _ => (.returns none, w.PyErr_SetString .error "first argument is not an object")

/-! ## A concrete world: one `Adder` entity -/

/-- The action of the command `add`: the sum of two bound integers, also stored in
the object graph state; any other binding throws. -/
def addAction : List Value → Int → Except CppException Value × Int
  | [.int a, .int b], _ => (.ok (.int (a + b)), a + b)
  | _, acc => (.error (.stdException "add: two integers expected"), acc)

/-- The command `add`, declared as taking two integers. -/
def addCommand : Command Int :=
  { valueTypes := [.INT, .INT], declared := by decide, docstring := "add two integers",
    valueVector := [],
    doExecute := addAction }

/-- A command without parameters whose action always throws. -/
def failCommand : Command Int :=
  { valueTypes := [], declared := by decide, docstring := "always fails", valueVector := [],
    doExecute := fun _ acc => (.error (.stdException "boom"), acc) }

/-- A command without parameters whose action throws an object that is not a
`std::exception`. -/
def raiseCommand : Command Int :=
  { valueTypes := [], declared := by decide, docstring := "throws a foreign object",
    valueVector := [],
    doExecute := fun _ acc => (.error .foreign, acc) }

/-- The entity `a1` of class `Adder`, with commands `add`, `fail` and `raise`. -/
def adder : Entity :=
  { name := "a1", className := "Adder",
    signalMap := ⟨[("out", 30)], by decide⟩,
    commandMap := ⟨[("add", 20), ("fail", 21), ("raise", 22)], by decide⟩,
    display := "Adder a1" }

/-- A world holding `a1` at address 10, registered in the pool. -/
def adderWorld : World Int :=
  { ext := 0,
    entities := fun a => if a = 10 then some adder else none,
    commands := fun a => if a = 20 then some addCommand else if a = 21 then some failCommand
      else if a = 22 then some raiseCommand else none,
    pool := ⟨[("a1", 10)], by decide⟩,
    pyErr := none,
    log := [] }

/-- A value bridge for integers and strings. -/
def simpleBridge : Bridge :=
  { pythonToValue := fun object valueType =>
      match object, valueType with
      | .int i, .INT => .ok (.int i)
      | .str s, .STRING => .ok (.string s)
      | _, _ => .error "unexpected type",
    valueToPython := fun value =>
      match value with
      | .int i => .int i
      | .string s => .str s
      | _ => .none }

/-- A factory knowing the class `Adder` only: it places a fresh entity without
signals or commands at the given address and registers it in the pool. -/
def adderFactory (place : Addr) : Factory Int := fun className instanceName w =>
  if className = "Adder" then
    (.ok place,
      { w with
        entities := fun a =>
          if a = place then
            some { name := instanceName, className := className, signalMap := StdMap.empty,
                   commandMap := StdMap.empty, display := className ++ " " ++ instanceName }
          else w.entities a,
        pool := w.pool.insert instanceName place })
  else
    (.error (.stdException ("unknown class " ++ className)), w)

/-- The items `2`, `3`, then `padding` times `None`. -/
def paddedTuple (padding : Nat) : List PyObject :=
  [PyObject.int 2, PyObject.int 3] ++ List.replicate padding PyObject.none

/-! ## Vocabulary of the statements -/

/-- The `pythonToValue` calls of the first `count` rounds of the argument loop
started at index `iParam`, as they appear in the log. -/
def conversionEvents (argTuple : List PyObject) (typeVector : List ValueType) :
    (count iParam : Nat) → List Event
  | 0, _ => []
  | count + 1, iParam =>
    match argTuple[iParam]?, typeVector[iParam]? with
    | some pyValue, some valueType =>
      .pythonToValue iParam pyValue valueType ::
        conversionEvents argTuple typeVector count (iParam + 1)
    | _, _ => []

/-- Whether a logged call is an execution of a command. -/
def Event.isExecute : Event → Bool
  | .execute _ => true
  | _ => false

/-- Whether a logged call binds parameter values to a command. -/
def Event.isSetParameterValues : Event → Bool
  | .setParameterValues _ _ => true
  | _ => false

/-- The text `part` occurs in `whole`. -/
def Mentions (whole part : String) : Prop :=
  ∃ before after : String, whole = before ++ part ++ after

/-- The entity at `obj` is registered in the pool under `instanceName` and is of
class `className`. -/
def Registered {σ : Type} (w : World σ) (instanceName : String) (obj : Addr)
    (className : String) : Prop :=
  existEntity w instanceName = some obj ∧
    ∃ entity, deref w.entities obj = some entity ∧ entity.className = className

/-- Every argument below `bound` converts: `values[i]` is what `pythonToValue`
yields for item `i` at declared type `i`. -/
def ConvertsBelow (B : Bridge) (argTuple : List PyObject) (typeVector : List ValueType)
    (values : List Value) (bound : Nat) : Prop :=
  ∀ i, i < bound → ∃ pyValue valueType value,
    argTuple[i]? = some pyValue ∧ typeVector[i]? = some valueType ∧ values[i]? = some value ∧
      B.pythonToValue pyValue valueType = .ok value

/-- The world after a successful binding of `values` to the command at
`command` and one execution that left the object graph in state `ext`. -/
def afterExecution {σ : Type} (w : World σ) (argTuple : List PyObject) (command : Addr)
    (cmd : Command σ) (values : List Value) (ext : σ) : World σ :=
  { w with
    ext := ext,
    commands := fun a => if a = command then some { cmd with valueVector := values }
      else w.commands a,
    log := w.log ++ conversionEvents argTuple cmd.valueTypes argTuple.length 0 ++
      [.setParameterValues command values, .execute command] }

/-! ## Facts about `StdMap` -/

theorem lookup_of_not_mem_keys {β : Type} (key : String) (l : List (String × β))
    (h : key ∉ l.map Prod.fst) : l.lookup key = none := by
  induction l with
  | nil => rfl
  | cons it rest ih =>
    obtain ⟨k, v⟩ := it
    simp only [List.map_cons, List.mem_cons, not_or] at h
    have hne : (key == k) = false := by simpa using h.1
    simp only [List.lookup, hne]
    exact ih h.2

theorem countP_of_not_mem_keys {β : Type} (key : String) (l : List (String × β))
    (h : key ∉ l.map Prod.fst) : l.countP (fun it => it.1 == key) = 0 := by
  rw [List.countP_eq_zero]
  intro it hit hk
  apply h
  have : it.1 = key := by simpa using hk
  exact this ▸ List.mem_map_of_mem Prod.fst hit

theorem StdMap.count_of_not_mem {β : Type} (m : StdMap β) (key : String) (h : key ∉ m.keys) :
    m.count key = 0 :=
  countP_of_not_mem_keys key m.entries h

theorem StdMap.find?_of_not_mem {β : Type} (m : StdMap β) (key : String) (h : key ∉ m.keys) :
    m.find? key = none :=
  lookup_of_not_mem_keys key m.entries h

theorem StdMap.subscript_of_not_mem (m : StdMap Addr) (key : String) (h : key ∉ m.keys) :
    m.subscript key = 0 := by
  simp [StdMap.subscript, lookup_of_not_mem_keys key m.entries h]

theorem countP_of_lookup {β : Type} (key : String) (value : β) (l : List (String × β))
    (hord : (l.map Prod.fst).Pairwise (fun a b => a.data < b.data))
    (h : l.lookup key = some value) : l.countP (fun it => it.1 == key) = 1 := by
  induction l with
  | nil => simp at h
  | cons it rest ih =>
    obtain ⟨k, v⟩ := it
    simp only [List.map_cons, List.pairwise_cons] at hord
    by_cases hk : key = k
    · subst hk
      have hnot : key ∉ rest.map Prod.fst := fun hmem => lt_irrefl _ (hord.1 key hmem)
      simp [List.countP_cons, countP_of_not_mem_keys key rest hnot]
    · have hne : (key == k) = false := by simpa using hk
      have hne2 : (k == key) = false := by simpa using fun h => hk h.symm
      simp only [List.lookup, hne] at h
      simp [List.countP_cons, hne2, ih hord.2 h]

theorem StdMap.count_of_find? {β : Type} (m : StdMap β) (key : String) (value : β)
    (h : m.find? key = some value) : m.count key = 1 :=
  countP_of_lookup key value m.entries m.ordered h

theorem StdMap.subscript_of_find? (m : StdMap Addr) (key : String) (value : Addr)
    (h : m.find? key = some value) : m.subscript key = value := by
  simp only [StdMap.find?] at h
  simp [StdMap.subscript, h]

theorem StdMap.keys_nodup {β : Type} (m : StdMap β) : m.keys.Nodup := by
  have h := m.ordered
  unfold StdMap.keys
  refine List.Pairwise.imp ?_ h
  intro a b hab heq
  subst heq
  exact lt_irrefl _ hab

/-! ## executeCommand: lookup and arity failures -/

/-- For an entity, an existing command declared with `n` parameters and an
argument tuple of length `m ≠ n` with `m < 2 ^ 32`, `executeCommand` returns
`NULL` with the module error "command takes n parameters, m given." set; the
message states both counts, and nothing else changes: no conversion, binding
or execution is logged, the command objects (hence the bound parameter
values) and the object graph state are as before. -/
theorem executeCommand_arity_mismatch {σ : Type} (B : Bridge) (w : World σ) (pointer : Addr)
    (entity : Entity) (c : String) (command : Addr) (cmd : Command σ) (items : List PyObject)
    (hentity : deref w.entities pointer = some entity)
    (hfind : entity.commandMap.find? c = some command)
    (hcmd : deref w.commands command = some cmd)
    (hbound : items.length < 2 ^ 32)
    (hlen : items.length ≠ cmd.valueTypes.length) :
    let message := "command takes " ++ toString cmd.valueTypes.length ++ " parameters, " ++
      toString items.length ++ " given."
    let r := executeCommand B w [.cobject pointer, .str c, .tuple items]
    r = (.returns none, w.PyErr_SetString .error message) ∧
      Mentions message (toString cmd.valueTypes.length) ∧
      Mentions message (toString items.length) ∧
      r.2.log = w.log ∧ r.2.commands = w.commands ∧ r.2.ext = w.ext := by
  intro message r
  have hcount : ¬ entity.commandMap.count c ≠ 1 := by
    simp [StdMap.count_of_find? _ _ _ hfind]
  have hsub := StdMap.subscript_of_find? _ _ _ hfind
  have hmod : items.length % 2 ^ 32 = items.length := Nat.mod_eq_of_lt hbound
  have hr : r = (.returns none, w.PyErr_SetString .error message) := by
    simp only [r, executeCommand, PyArg_ParseTuple_OsO, hentity, hcount, if_false, hsub, hcmd,
      hmod, hlen, ne_eq, not_false_eq_true, if_true, message]
  refine ⟨hr, ⟨"command takes ", " parameters, " ++ toString items.length ++ " given.", ?_⟩,
    ⟨"command takes " ++ toString cmd.valueTypes.length ++ " parameters, ", " given.", ?_⟩,
    ?_, ?_, ?_⟩
  · simp only [message, String.append_assoc]
  · simp only [message, String.append_assoc]
  · rw [hr]; rfl
  · rw [hr]; rfl
  · rw [hr]; rfl

/-- The command `add` takes two integers and is given one. -/
theorem executeCommand_arity_mismatch_witness :
    let message := "command takes " ++ toString addCommand.valueTypes.length ++ " parameters, " ++
      toString [PyObject.int 2].length ++ " given."
    let r := executeCommand simpleBridge adderWorld [.cobject 10, .str "add", .tuple [.int 2]]
    r = (.returns none, adderWorld.PyErr_SetString .error message) ∧
      Mentions message (toString addCommand.valueTypes.length) ∧
      Mentions message (toString [PyObject.int 2].length) ∧
      r.2.log = adderWorld.log ∧ r.2.commands = adderWorld.commands ∧
      r.2.ext = adderWorld.ext :=
  executeCommand_arity_mismatch simpleBridge adderWorld 10 adder "add" 20 addCommand [.int 2]
    rfl rfl rfl (by decide) (by decide)

/-- C4: for an entity and a name `c` that is not a key of its command mapping,
whatever the argument tuple, `executeCommand` returns `NULL` with the module
error "command c is not referenced in Entity name" set; the message mentions
both `c` and the entity name, and the world is otherwise unchanged: nothing is
logged (no conversion, binding or execution), and the entity objects, hence the
command mapping of the entity, are as before. -/
theorem executeCommand_unknown_command {σ : Type} (B : Bridge) (w : World σ) (pointer : Addr)
    (entity : Entity) (c : String) (items : List PyObject)
    (hentity : deref w.entities pointer = some entity)
    (hmissing : c ∉ entity.commandMap.keys) :
    let message := "command " ++ c ++ " is not referenced in Entity " ++ entity.name
    let r := executeCommand B w [.cobject pointer, .str c, .tuple items]
    r = (.returns none, w.PyErr_SetString .error message) ∧
      Mentions message c ∧ Mentions message entity.name ∧
      r.2.log = w.log ∧ r.2.commands = w.commands ∧ r.2.ext = w.ext ∧
      r.2.entities = w.entities := by
  intro message r
  have hcount : entity.commandMap.count c ≠ 1 := by
    simp [StdMap.count_of_not_mem _ _ hmissing]
  have hr : r = (.returns none, w.PyErr_SetString .error message) := by
    simp only [r, executeCommand, PyArg_ParseTuple_OsO, hentity, hcount, ne_eq,
      not_false_eq_true, if_true, message]
  refine ⟨hr, ⟨"command ", " is not referenced in Entity " ++ entity.name, ?_⟩,
    ⟨"command " ++ c ++ " is not referenced in Entity ", "", ?_⟩, ?_, ?_, ?_, ?_⟩
  · simp only [message, String.append_assoc]
  · simp only [message, String.append_empty]
  · rw [hr]; rfl
  · rw [hr]; rfl
  · rw [hr]; rfl
  · rw [hr]; rfl

/-- Witness for C4: the entity `a1` has no command `nonexistent`; the tuple is
empty. -/
theorem executeCommand_unknown_command_witness :
    let message := "command " ++ "nonexistent" ++ " is not referenced in Entity " ++ adder.name
    let r := executeCommand simpleBridge adderWorld [.cobject 10, .str "nonexistent", .tuple []]
    r = (.returns none, adderWorld.PyErr_SetString .error message) ∧
      Mentions message "nonexistent" ∧ Mentions message adder.name ∧
      r.2.log = adderWorld.log ∧ r.2.commands = adderWorld.commands ∧
      r.2.ext = adderWorld.ext ∧ r.2.entities = adderWorld.entities :=
  executeCommand_unknown_command simpleBridge adderWorld 10 adder "nonexistent" [] rfl
    (by decide)

/-! ## create -/

/-- C7: when the pool holds an entity named `N` of class `C` and `C2 ≠ C`,
`create(C2, N)` fails with the `CLASS_INCONSISTENT` exception, which leaves the
function: no handle is returned, and the world, with the pool and the log
(hence no factory call), is unchanged. -/
theorem create_class_inconsistent {σ : Type} (newEntity : Factory σ) (w : World σ)
    (C C2 N : String) (obj : Addr) (hreg : Registered w N obj C) (hne : C2 ≠ C) :
    create newEntity w [.str C2, .str N] =
      (.throws (.exceptionPython .CLASS_INCONSISTENT
        "Found an object with the same name but of different class."), w) := by
  obtain ⟨hpool, entity, hentity, hclass⟩ := hreg
  have hcls : entity.className ≠ C2 := by rw [hclass]; exact fun h => hne h.symm
  simp only [create, PyArg_ParseTuple_ss, hpool, hentity, hcls, ne_eq, not_false_eq_true,
    if_true]

/-- Witness for C7: `a1` is an `Adder`; `create("Multiplier", "a1")`. -/
theorem create_class_inconsistent_witness :
    create (adderFactory 11) adderWorld [.str "Multiplier", .str "a1"] =
      (.throws (.exceptionPython .CLASS_INCONSISTENT
        "Found an object with the same name but of different class."), adderWorld) :=
  create_class_inconsistent (adderFactory 11) adderWorld "Adder" "Multiplier" "a1" 10
    ⟨rfl, adder, rfl, rfl⟩ (by decide)

/-- C6: if the factory, when this call invokes it and it succeeds, registers the
new entity under `N` with class `C`, and a first `create(C, N)` returns a
handle, then a second `create(C, N)` in the resulting world returns the same
handle and leaves that world, with the pool and the log (hence no factory call),
unchanged. -/
theorem create_twice {σ : Type} (newEntity : Factory σ) (w w1 : World σ) (C N : String)
    (handle : PyObject)
    (hfactory : ∀ obj w', newEntity C N (w.record (.newEntity C N)) = (.ok obj, w') →
      Registered w' N obj C)
    (hfirst : create newEntity w [.str C, .str N] = (.returns (some handle), w1)) :
    create newEntity w1 [.str C, .str N] = (.returns (some handle), w1) := by
  have key : ∀ obj, Registered w1 N obj C →
      create newEntity w1 [.str C, .str N] = (.returns (some (.cobject obj)), w1) := by
    intro obj hreg
    obtain ⟨hpool, entity, hentity, hclass⟩ := hreg
    simp only [create, PyArg_ParseTuple_ss, hpool, hentity, hclass, ne_eq, not_true_eq_false,
      if_false]
  simp only [create, PyArg_ParseTuple_ss] at hfirst
  cases hpool : existEntity w N with
  | some obj =>
    simp only [hpool] at hfirst
    cases hentity : deref w.entities obj with
    | none => simp [hentity] at hfirst
    | some entity =>
      simp only [hentity] at hfirst
      by_cases hcls : entity.className = C
      · simp only [hcls, ne_eq, not_true_eq_false, if_false, Prod.mk.injEq, Outcome.returns.injEq,
          Option.some.injEq] at hfirst
        obtain ⟨hh, hw⟩ := hfirst
        subst hh; subst hw
        exact key obj ⟨hpool, entity, hentity, hcls⟩
      · simp [hcls] at hfirst
  | none =>
    simp only [hpool] at hfirst
    cases hcall : newEntity C N (w.record (.newEntity C N)) with
    | mk res w' =>
      cases res with
      | ok obj =>
        simp only [hcall, Prod.mk.injEq, Outcome.returns.injEq, Option.some.injEq] at hfirst
        obtain ⟨hh, hw⟩ := hfirst
        subst hh; subst hw
        exact key obj (hfactory obj w' hcall)
      | error exc =>
        simp only [hcall] at hfirst
        split at hfirst <;> simp at hfirst

/-- Witness for C6: `create("Adder", "a2")` in a world without `a2`; the first
call goes through the factory, the second finds the entity in the pool. -/
theorem create_twice_witness :
    create (adderFactory 11)
        (create (adderFactory 11) adderWorld [.str "Adder", .str "a2"]).2
        [.str "Adder", .str "a2"] =
      (.returns (some (.cobject 11)),
        (create (adderFactory 11) adderWorld [.str "Adder", .str "a2"]).2) :=
  create_twice (adderFactory 11) adderWorld _ "Adder" "a2" (.cobject 11)
    (by
      intro obj w' h
      have h' : ((Except.ok 11 : Except CppException Addr),
          (adderFactory 11 "Adder" "a2" (adderWorld.record (.newEntity "Adder" "a2"))).2) =
          (.ok obj, w') := h
      injection h' with h1 h2
      injection h1 with h1
      subst h1; subst h2
      exact ⟨rfl, _, rfl, rfl⟩)
    rfl

/-! ## executeCommand: the argument loop -/

theorem parseArguments_done (B : Bridge) (argTuple : List PyObject)
    (typeVector : List ValueType) (values : List Value)
    (hconv : ConvertsBelow B argTuple typeVector values values.length) :
    ∀ (remaining iParam : Nat) (valueVector : List Value) (log : List Event),
      iParam + remaining = values.length →
      parseArguments B argTuple typeVector remaining iParam valueVector log =
        (.done (valueVector ++ values.drop iParam),
          log ++ conversionEvents argTuple typeVector remaining iParam) := by
  intro remaining
  induction remaining with
  | zero =>
    intro iParam valueVector log h
    have h0 : iParam = values.length := by omega
    simp [parseArguments, conversionEvents, h0]
  | succ n ih =>
    intro iParam valueVector log h
    have hlt : iParam < values.length := by omega
    obtain ⟨pyValue, valueType, value, ha, ht, hv, hc⟩ := hconv iParam hlt
    have hdrop : values.drop iParam = value :: values.drop (iParam + 1) := by
      rw [List.drop_eq_getElem_cons hlt]
      congr 1
      rw [List.getElem?_eq_getElem hlt] at hv
      exact Option.some.inj hv
    simp only [parseArguments, conversionEvents, ha, ht, hc]
    rw [ih (iParam + 1) (valueVector ++ [value]) _ (by omega), hdrop]
    simp

theorem parseArguments_failed (B : Bridge) (argTuple : List PyObject)
    (typeVector : List ValueType) (values : List Value) (k : Nat) (pyValue : PyObject)
    (valueType : ValueType) (cause : String)
    (hconv : ConvertsBelow B argTuple typeVector values k)
    (ha : argTuple[k]? = some pyValue) (ht : typeVector[k]? = some valueType)
    (hfail : B.pythonToValue pyValue valueType = .error cause) :
    ∀ (d iParam remaining : Nat) (valueVector : List Value) (log : List Event),
      iParam + d = k → d < remaining →
      parseArguments B argTuple typeVector remaining iParam valueVector log =
        (.failed ("Error while parsing argument " ++ toString (k + 1) ++ ": " ++ cause ++ "."),
          log ++ conversionEvents argTuple typeVector (d + 1) iParam) := by
  intro d
  induction d with
  | zero =>
    intro iParam remaining valueVector log hk hrem
    have hk' : iParam = k := by omega
    subst hk'
    obtain ⟨n, rfl⟩ : ∃ n, remaining = n + 1 := ⟨remaining - 1, by omega⟩
    simp only [parseArguments, conversionEvents, ha, ht, hfail]
  | succ d ih =>
    intro iParam remaining valueVector log hk hrem
    obtain ⟨n, rfl⟩ : ∃ n, remaining = n + 1 := ⟨remaining - 1, by omega⟩
    obtain ⟨pyValue', valueType', value, ha', ht', _, hc⟩ := hconv iParam (by omega)
    simp only [parseArguments, ha', ht', hc]
    rw [ih (iParam + 1) n _ _ (by omega) (by omega)]
    simp only [conversionEvents, ha', ht', List.append_assoc, List.singleton_append]

theorem countP_isExecute_conversionEvents (argTuple : List PyObject)
    (typeVector : List ValueType) :
    ∀ (count iParam : Nat),
      (conversionEvents argTuple typeVector count iParam).countP Event.isExecute = 0 := by
  intro count
  induction count with
  | zero => intro iParam; rfl
  | succ n ih =>
    intro iParam
    unfold conversionEvents
    split
    · simp [List.countP_cons, Event.isExecute, ih]
    · rfl

theorem countP_isSetParameterValues_conversionEvents (argTuple : List PyObject)
    (typeVector : List ValueType) :
    ∀ (count iParam : Nat),
      (conversionEvents argTuple typeVector count iParam).countP
        Event.isSetParameterValues = 0 := by
  intro count
  induction count with
  | zero => intro iParam; rfl
  | succ n ih =>
    intro iParam
    unfold conversionEvents
    split
    · simp [List.countP_cons, Event.isSetParameterValues, ih]
    · rfl

theorem ne_zero_of_deref {α : Type} (heap : Addr → Option α) (p : Addr) (x : α)
    (h : deref heap p = some x) : p ≠ 0 := by
  intro h0
  simp [deref, h0] at h

theorem executeCommand_converted_of_size {σ : Type} (B : Bridge) (w : World σ)
    (pointer : Addr) (entity : Entity) (c : String) (command : Addr) (cmd : Command σ)
    (items : List PyObject) (values : List Value)
    (hentity : deref w.entities pointer = some entity)
    (hfind : entity.commandMap.find? c = some command)
    (hcmd : deref w.commands command = some cmd)
    (hsize : items.length % 2 ^ 32 = cmd.valueTypes.length)
    (hvalues : values.length = cmd.valueTypes.length)
    (hconv : ConvertsBelow B items cmd.valueTypes values values.length) :
    executeCommand B w [.cobject pointer, .str c, .tuple items] =
      bindAndExecute B
        { w with
          log := w.log ++ conversionEvents items cmd.valueTypes cmd.valueTypes.length 0 }
        command cmd values := by
  have hcount : ¬ entity.commandMap.count c ≠ 1 := by
    simp [StdMap.count_of_find? _ _ _ hfind]
  have hsub := StdMap.subscript_of_find? _ _ _ hfind
  have hparse := parseArguments_done B items cmd.valueTypes values hconv
    cmd.valueTypes.length 0 [] w.log (by omega)
  simp only [List.drop_zero, List.nil_append] at hparse
  simp only [executeCommand, PyArg_ParseTuple_OsO, hentity, hcount, if_false, hsub, hcmd,
    hsize, ne_eq, not_true_eq_false, hparse]

theorem executeCommand_converted {σ : Type} (B : Bridge) (w : World σ) (pointer : Addr)
    (entity : Entity) (c : String) (command : Addr) (cmd : Command σ) (items : List PyObject)
    (values : List Value)
    (hentity : deref w.entities pointer = some entity)
    (hfind : entity.commandMap.find? c = some command)
    (hcmd : deref w.commands command = some cmd)
    (hlen : items.length = cmd.valueTypes.length)
    (hvalues : values.length = items.length)
    (hconv : ConvertsBelow B items cmd.valueTypes values values.length) :
    executeCommand B w [.cobject pointer, .str c, .tuple items] =
      bindAndExecute B
        { w with log := w.log ++ conversionEvents items cmd.valueTypes items.length 0 }
        command cmd values := by
  have hsize : items.length % 2 ^ 32 = cmd.valueTypes.length := by
    rw [hlen]; exact Nat.mod_eq_of_lt cmd.declared
  rw [executeCommand_converted_of_size B w pointer entity c command cmd items values hentity
    hfind hcmd hsize (by omega) hconv, hlen]

theorem setParameterValues_ok {σ : Type} (cmd : Command σ) (values : List Value)
    (htypes : values.map Value.type = cmd.valueTypes) :
    cmd.setParameterValues values = .ok { cmd with valueVector := values } := by
  have hlen : values.length = cmd.valueTypes.length := by
    rw [← htypes, List.length_map]
  simp [Command.setParameterValues, hlen, htypes]

theorem executeCommand_success_of_size {σ : Type} (B : Bridge) (w : World σ)
    (pointer : Addr) (entity : Entity) (c : String) (command : Addr) (cmd : Command σ)
    (items : List PyObject) (values : List Value) (result : Value) (ext : σ)
    (hentity : deref w.entities pointer = some entity)
    (hfind : entity.commandMap.find? c = some command)
    (hcmd : deref w.commands command = some cmd)
    (hsize : items.length % 2 ^ 32 = cmd.valueTypes.length)
    (hconv : ConvertsBelow B items cmd.valueTypes values values.length)
    (htypes : values.map Value.type = cmd.valueTypes)
    (hexec : cmd.doExecute values w.ext = (.ok result, ext)) :
    executeCommand B w [.cobject pointer, .str c, .tuple items] =
      (.returns (some (B.valueToPython result)),
        { w with
          ext := ext,
          commands := fun a => if a = command then some { cmd with valueVector := values }
            else w.commands a,
          log := w.log ++ conversionEvents items cmd.valueTypes cmd.valueTypes.length 0 ++
            [.setParameterValues command values, .execute command] }) := by
  have hvalues : values.length = cmd.valueTypes.length := by
    rw [← htypes, List.length_map]
  rw [executeCommand_converted_of_size B w pointer entity c command cmd items values hentity
    hfind hcmd hsize hvalues hconv]
  simp only [bindAndExecute, setParameterValues_ok cmd values htypes, Command.execute,
    World.record, World.storeCommand, hexec, List.append_assoc, List.singleton_append]

/-! ## executeCommand: the arity test on a narrowed size -/

theorem paddedTuple_length (padding : Nat) : (paddedTuple padding).length = padding + 2 := by
  simp only [paddedTuple, List.length_append, List.length_replicate, List.length_cons,
    List.length_nil]
  omega

theorem paddedTuple_first (padding : Nat) : (paddedTuple padding)[0]? = some (.int 2) := by
  simp [paddedTuple]

theorem paddedTuple_second (padding : Nat) : (paddedTuple padding)[1]? = some (.int 3) := by
  simp [paddedTuple]

/-- C2, at the failing input: the command `add` of `a1` is declared with 2
parameters and is given `paddedTuple (2 ^ 32)`, a tuple of `2 ^ 32 + 2` items: `2`,
`3` and then `2 ^ 32` times `None`.  The `unsigned int` of line 197 holds 2, the test of
line 211 passes, the first two items are converted and bound, and the command
is executed once: the call returns `5` and records no error. -/
theorem executeCommand_oversized_tuple_executes :
    (executeCommand simpleBridge adderWorld
        [.cobject 10, .str "add", .tuple (paddedTuple (2 ^ 32))]).1 = .returns (some (.int 5)) ∧
      (paddedTuple (2 ^ 32)).length = 2 ^ 32 + 2 ∧ addCommand.valueTypes.length = 2 ∧
      (executeCommand simpleBridge adderWorld
        [.cobject 10, .str "add", .tuple (paddedTuple (2 ^ 32))]).2.pyErr = none ∧
      (executeCommand simpleBridge adderWorld
        [.cobject 10, .str "add", .tuple (paddedTuple (2 ^ 32))]).2.ext = 5 ∧
      (deref (executeCommand simpleBridge adderWorld
        [.cobject 10, .str "add", .tuple (paddedTuple (2 ^ 32))]).2.commands 20).map
          (fun bound => bound.valueVector) = some [.int 2, .int 3] ∧
      ((executeCommand simpleBridge adderWorld
        [.cobject 10, .str "add", .tuple (paddedTuple (2 ^ 32))]).2.log.drop
          adderWorld.log.length).countP Event.isExecute = 1 := by
  have hlength : (paddedTuple (2 ^ 32)).length = 2 ^ 32 + 2 := paddedTuple_length (2 ^ 32)
  have hsize : (paddedTuple (2 ^ 32)).length % 2 ^ 32 = addCommand.valueTypes.length := by
    rw [hlength]
    show (2 ^ 32 + 2) % 2 ^ 32 = 2
    omega
  have hconv : ConvertsBelow simpleBridge (paddedTuple (2 ^ 32)) addCommand.valueTypes
      [.int 2, .int 3] [Value.int 2, Value.int 3].length := by
    intro i hi
    have hi' : i < 2 := hi
    interval_cases i
    · exact ⟨.int 2, .INT, .int 2, paddedTuple_first (2 ^ 32), rfl, rfl, rfl⟩
    · exact ⟨.int 3, .INT, .int 3, paddedTuple_second (2 ^ 32), rfl, rfl, rfl⟩
  have hr := executeCommand_success_of_size simpleBridge adderWorld 10 adder "add" 20
    addCommand (paddedTuple (2 ^ 32)) [.int 2, .int 3] (.int 5) 5 rfl rfl rfl hsize hconv rfl rfl
  rw [hr]
  refine ⟨rfl, hlength, rfl, rfl, rfl, rfl, ?_⟩
  simp [List.countP_cons, Event.isExecute, countP_isExecute_conversionEvents]

/-! ## executeCommand: success and failures after the arity check -/

/-- C1: for an entity, a command `c` of its command mapping declared with types
`[t_1..t_n]`, and an argument tuple of length `n` whose item `i` converts to
`values[i]` of type `t_i`: `executeCommand` binds exactly `values` to the
command, executes it once (one `execute` call is logged, after the `n`
conversions and the binding), and returns `valueToPython` of the value the
execution produced. -/
theorem executeCommand_success {σ : Type} (B : Bridge) (w : World σ) (pointer : Addr)
    (entity : Entity) (c : String) (command : Addr) (cmd : Command σ) (items : List PyObject)
    (values : List Value) (result : Value) (ext : σ)
    (hentity : deref w.entities pointer = some entity)
    (hfind : entity.commandMap.find? c = some command)
    (hcmd : deref w.commands command = some cmd)
    (hlen : items.length = cmd.valueTypes.length)
    (hvalues : values.length = items.length)
    (hconv : ConvertsBelow B items cmd.valueTypes values values.length)
    (htypes : values.map Value.type = cmd.valueTypes)
    (hexec : cmd.doExecute values w.ext = (.ok result, ext)) :
    let r := executeCommand B w [.cobject pointer, .str c, .tuple items]
    r = (.returns (some (B.valueToPython result)),
        afterExecution w items command cmd values ext) ∧
      (deref r.2.commands command).map (fun bound => bound.valueVector) = some values ∧
      (r.2.log.drop w.log.length).countP Event.isExecute = 1 ∧
      (r.2.log.drop w.log.length).countP Event.isSetParameterValues = 1 := by
  intro r
  have hne := ne_zero_of_deref _ _ _ hcmd
  have hr : r = (.returns (some (B.valueToPython result)),
      afterExecution w items command cmd values ext) := by
    simp only [r]
    rw [executeCommand_converted B w pointer entity c command cmd items values hentity hfind
      hcmd hlen hvalues hconv]
    simp only [bindAndExecute, setParameterValues_ok cmd values htypes, Command.execute,
      World.record, World.storeCommand, hexec, afterExecution, List.append_assoc,
      List.singleton_append]
  refine ⟨hr, ?_, ?_, ?_⟩
  · rw [hr]
    simp [afterExecution, deref, hne]
  · rw [hr]
    simp [afterExecution, List.countP_cons, Event.isExecute,
      countP_isExecute_conversionEvents]
  · rw [hr]
    simp [afterExecution, List.countP_cons, Event.isSetParameterValues,
      countP_isSetParameterValues_conversionEvents]

/-- Witness for C1: `executeCommand(a1, "add", [2, 3])` returns `5`. -/
theorem executeCommand_success_witness :
    let r := executeCommand simpleBridge adderWorld
      [.cobject 10, .str "add", .tuple [.int 2, .int 3]]
    r = (.returns (some (simpleBridge.valueToPython (.int 5))),
        afterExecution adderWorld [.int 2, .int 3] 20 addCommand [.int 2, .int 3] 5) ∧
      (deref r.2.commands 20).map (fun bound => bound.valueVector) =
        some [.int 2, .int 3] ∧
      (r.2.log.drop adderWorld.log.length).countP Event.isExecute = 1 ∧
      (r.2.log.drop adderWorld.log.length).countP Event.isSetParameterValues = 1 :=
  executeCommand_success simpleBridge adderWorld 10 adder "add" 20 addCommand
    [.int 2, .int 3] [.int 2, .int 3] (.int 5) 5 rfl rfl rfl rfl rfl
    (by
      intro i hi
      have hi' : i < 2 := hi
      interval_cases i
      · exact ⟨.int 2, .INT, .int 2, rfl, rfl, rfl, rfl⟩
      · exact ⟨.int 3, .INT, .int 3, rfl, rfl, rfl, rfl⟩)
    rfl rfl

/-- C9: for an entity, an existing command and an argument tuple that passes the
arity check and converts fully (to values of the declared types): if the
action throws an exception carrying a message (one derived from
`std::exception`), `executeCommand` returns `NULL`, no result value, and the
module error is set with exactly that message. -/
theorem executeCommand_action_throws {σ : Type} (B : Bridge) (w : World σ) (pointer : Addr)
    (entity : Entity) (c : String) (command : Addr) (cmd : Command σ) (items : List PyObject)
    (values : List Value) (exc : CppException) (ext : σ)
    (hentity : deref w.entities pointer = some entity)
    (hfind : entity.commandMap.find? c = some command)
    (hcmd : deref w.commands command = some cmd)
    (hlen : items.length = cmd.valueTypes.length)
    (hvalues : values.length = items.length)
    (hconv : ConvertsBelow B items cmd.valueTypes values values.length)
    (htypes : values.map Value.type = cmd.valueTypes)
    (hexec : cmd.doExecute values w.ext = (.error exc, ext))
    (hstd : exc.isStd = true) :
    let r := executeCommand B w [.cobject pointer, .str c, .tuple items]
    r.1 = .returns none ∧ r.2.pyErr = some ⟨.error, exc.what⟩ := by
  intro r
  simp only [r]
  rw [executeCommand_converted B w pointer entity c command cmd items values hentity hfind
    hcmd hlen hvalues hconv]
  simp only [bindAndExecute, setParameterValues_ok cmd values htypes, Command.execute,
    World.record, World.storeCommand, hexec, hstd, if_true, World.PyErr_SetString, and_self]

/-- Witness for C9: the command `fail` of `a1` throws "boom". -/
theorem executeCommand_action_throws_witness :
    let r := executeCommand simpleBridge adderWorld [.cobject 10, .str "fail", .tuple []]
    r.1 = .returns none ∧
      r.2.pyErr = some ⟨.error, (CppException.stdException "boom").what⟩ :=
  executeCommand_action_throws simpleBridge adderWorld 10 adder "fail" 21 failCommand
    [] [] (.stdException "boom") 0 rfl rfl rfl rfl rfl
    (by intro i hi; exact absurd hi (Nat.not_lt_zero i))
    rfl rfl rfl

/-- C3: for an entity, an existing command with `n` declared parameters and an
argument tuple of length `n` in which items `0..k-1` convert and item `k`
fails conversion with cause `cause`: `executeCommand` returns `NULL` with the
module error "Error while parsing argument k+1: cause." set; the log gains the
`k + 1` conversion calls only (no binding, no execution), and the command
objects, hence the previously bound parameter values, and the object graph
state are unchanged. -/
theorem executeCommand_conversion_failure {σ : Type} (B : Bridge) (w : World σ)
    (pointer : Addr) (entity : Entity) (c : String) (command : Addr) (cmd : Command σ)
    (items : List PyObject) (values : List Value) (k : Nat) (pyValue : PyObject)
    (valueType : ValueType) (cause : String)
    (hentity : deref w.entities pointer = some entity)
    (hfind : entity.commandMap.find? c = some command)
    (hcmd : deref w.commands command = some cmd)
    (hlen : items.length = cmd.valueTypes.length)
    (hconv : ConvertsBelow B items cmd.valueTypes values k)
    (ha : items[k]? = some pyValue) (ht : cmd.valueTypes[k]? = some valueType)
    (hfail : B.pythonToValue pyValue valueType = .error cause) :
    let message := "Error while parsing argument " ++ toString (k + 1) ++ ": " ++ cause ++ "."
    let r := executeCommand B w [.cobject pointer, .str c, .tuple items]
    r = (.returns none,
        ({ w with log := w.log ++ conversionEvents items cmd.valueTypes (k + 1) 0 }).PyErr_SetString
          .error message) ∧
      Mentions message (toString (k + 1)) ∧ Mentions message cause ∧
      r.2.commands = w.commands ∧ r.2.ext = w.ext ∧
      (r.2.log.drop w.log.length).countP Event.isSetParameterValues = 0 ∧
      (r.2.log.drop w.log.length).countP Event.isExecute = 0 := by
  intro message r
  have hcount : ¬ entity.commandMap.count c ≠ 1 := by
    simp [StdMap.count_of_find? _ _ _ hfind]
  have hsub := StdMap.subscript_of_find? _ _ _ hfind
  have hmod : items.length % 2 ^ 32 = items.length := by
    rw [hlen]; exact Nat.mod_eq_of_lt cmd.declared
  have hlen' : ¬ items.length ≠ cmd.valueTypes.length := by simp [hlen]
  have hk : k < items.length := by
    by_contra hge
    rw [List.getElem?_eq_none (by omega)] at ha
    exact Option.noConfusion ha
  have hparse := parseArguments_failed B items cmd.valueTypes values k pyValue valueType cause
    hconv ha ht hfail k 0 items.length [] w.log (by omega) hk
  have hr : r = (.returns none,
      ({ w with log := w.log ++ conversionEvents items cmd.valueTypes (k + 1) 0 }).PyErr_SetString
        .error message) := by
    simp only [r, executeCommand, PyArg_ParseTuple_OsO, hentity, hcount, if_false, hsub, hcmd,
      hmod, hlen', hparse, message]
  refine ⟨hr, ⟨"Error while parsing argument ", ": " ++ cause ++ ".", ?_⟩,
    ⟨"Error while parsing argument " ++ toString (k + 1) ++ ": ", ".", ?_⟩, ?_, ?_, ?_, ?_⟩
  · simp only [message, String.append_assoc]
  · simp only [message, String.append_assoc]
  · rw [hr]; rfl
  · rw [hr]; rfl
  · rw [hr]
    simp [World.PyErr_SetString, countP_isSetParameterValues_conversionEvents]
  · rw [hr]
    simp [World.PyErr_SetString, countP_isExecute_conversionEvents]

/-- Witness for C3: the second argument of `add` is a string; the first one
converts. -/
theorem executeCommand_conversion_failure_witness :
    let message := "Error while parsing argument " ++ toString (1 + 1) ++ ": " ++
      "unexpected type" ++ "."
    let r := executeCommand simpleBridge adderWorld
      [.cobject 10, .str "add", .tuple [.int 2, .str "x"]]
    r = (.returns none,
        ({ adderWorld with
            log := adderWorld.log ++
              conversionEvents [.int 2, .str "x"] addCommand.valueTypes (1 + 1) 0 }).PyErr_SetString
          .error message) ∧
      Mentions message (toString (1 + 1)) ∧ Mentions message "unexpected type" ∧
      r.2.commands = adderWorld.commands ∧ r.2.ext = adderWorld.ext ∧
      (r.2.log.drop adderWorld.log.length).countP Event.isSetParameterValues = 0 ∧
      (r.2.log.drop adderWorld.log.length).countP Event.isExecute = 0 :=
  executeCommand_conversion_failure simpleBridge adderWorld 10 adder "add" 20 addCommand
    [.int 2, .str "x"] [.int 2] 1 (.str "x") .INT "unexpected type" rfl rfl rfl rfl
    (by
      intro i hi
      interval_cases i
      exact ⟨.int 2, .INT, .int 2, rfl, rfl, rfl, rfl⟩)
    rfl rfl rfl

/-! ## listCommands -/

theorem fillCommands_spec (entries : List (String × Addr)) :
    ∀ (filled : List (Option PyObject)),
      fillCommands (filled ++ List.replicate entries.length none) filled.length entries =
        filled ++ entries.map (fun it => some (PyObject.str it.1)) := by
  induction entries with
  | nil => intro filled; simp [fillCommands]
  | cons it rest ih =>
    intro filled
    have hset : PyTuple_SET_ITEM (filled ++ List.replicate (it :: rest).length none)
        filled.length (.str it.1) =
        (filled ++ [some (PyObject.str it.1)]) ++ List.replicate rest.length none := by
      simp [PyTuple_SET_ITEM, List.replicate_succ]
    have hlen : filled.length + 1 = (filled ++ [some (PyObject.str it.1)]).length := by simp
    rw [fillCommands, hset, hlen, ih]
    simp

theorem filledItems_map_some (items : List PyObject) :
    filledItems (items.map some) = some items := by
  induction items with
  | nil => rfl
  | cons item rest ih => simp [filledItems, ih]

/-- C10: for an entity, `listCommands` returns the tuple of its command names:
as many items as the command mapping has entries, item `i` being the key of
entry `i` in iteration order, so that every command name appears exactly once
and nothing else appears; for an empty mapping the tuple is empty; the world,
and so the entity, is unchanged. -/
theorem listCommands_keys {σ : Type} (w : World σ) (pointer : Addr) (entity : Entity)
    (hentity : deref w.entities pointer = some entity) :
    let names := entity.commandMap.keys.map PyObject.str
    listCommands w [.cobject pointer] = (.returns (some (.tuple names)), w) ∧
      names.length = entity.commandMap.size ∧
      (∀ i : Nat, names[i]? =
        (entity.commandMap.entries[i]?).map (fun it : String × Addr => PyObject.str it.1)) ∧
      names.Nodup ∧
      (∀ item, item ∈ names ↔ ∃ it ∈ entity.commandMap.entries, item = PyObject.str it.1) ∧
      (entity.commandMap.entries = [] → names = []) := by
  intro names
  have hfill := fillCommands_spec entity.commandMap.entries []
  simp only [List.nil_append, List.length_nil] at hfill
  have hmap : entity.commandMap.entries.map (fun it => some (PyObject.str it.1)) =
      names.map some := by
    simp [names, StdMap.keys, List.map_map, Function.comp_def]
  refine ⟨?_, ?_, ?_, ?_, ?_, ?_⟩
  · simp only [listCommands, PyArg_ParseTuple_O, hentity, PyTuple_New, StdMap.size, hfill,
      returnTuple, hmap, filledItems_map_some]
  · simp [names, StdMap.keys, StdMap.size]
  · intro i
    simp [names, StdMap.keys, List.map_map, Function.comp_def]
  · exact (entity.commandMap.keys_nodup).map (fun a b h => PyObject.str.inj h)
  · intro item
    simp only [names, StdMap.keys, List.map_map, List.mem_map, Function.comp_apply]
    constructor
    · rintro ⟨it, hit, rfl⟩; exact ⟨it, hit, rfl⟩
    · rintro ⟨it, hit, rfl⟩; exact ⟨it, hit, rfl⟩
  · intro hempty
    simp [names, StdMap.keys, hempty]

/-- Witness for C10: the commands of `a1` are `add`, `fail` and `raise`. -/
theorem listCommands_keys_witness :
    let names := adder.commandMap.keys.map PyObject.str
    listCommands adderWorld [.cobject 10] = (.returns (some (.tuple names)), adderWorld) ∧
      names.length = adder.commandMap.size ∧
      (∀ i : Nat, names[i]? =
        (adder.commandMap.entries[i]?).map (fun it : String × Addr => PyObject.str it.1)) ∧
      names.Nodup ∧
      (∀ item, item ∈ names ↔ ∃ it ∈ adder.commandMap.entries, item = PyObject.str it.1) ∧
      (adder.commandMap.entries = [] → names = []) :=
  listCommands_keys adderWorld 10 adder rfl

/-! ## Boundary failures that record no error, and the missing-key dereference -/

/-- C5, at the failing input: `a1` has no command `nonexistent`, and
`getCommandDocstring` reads the docstring through the null pointer that
`map[commandName]` yields: the outcome is undefined behaviour, and no error is
recorded. -/
theorem getCommandDocstring_missing_null_dereference :
    getCommandDocstring adderWorld [.cobject 10, .str "nonexistent"] =
      (.undefined, adderWorld) ∧
      adder.commandMap.subscript "nonexistent" = 0 ∧
      (getCommandDocstring adderWorld [.cobject 10, .str "nonexistent"]).2.pyErr = none :=
  ⟨rfl, rfl, rfl⟩

/-- C8, at the failing input: `listSignals` called with an integer in place of
the entity handle returns `NULL`, and the error indicator is still unset. -/
theorem listSignals_null_without_error :
    listSignals adderWorld [.int 42] = (.returns none, adderWorld) ∧
      (listSignals adderWorld [.int 42]).2.pyErr = none :=
  ⟨rfl, rfl⟩

/-! ## Further facts about the boundary -/

/-- For an entity and a name that is not a key of its command mapping,
`getCommandDocstring` dereferences the null pointer `map[commandName]`: the
outcome is undefined behaviour, and the world, with its unset or earlier error
indicator, is as before. -/
theorem getCommandDocstring_missing {σ : Type} (w : World σ) (pointer : Addr)
    (entity : Entity) (c : String)
    (hentity : deref w.entities pointer = some entity)
    (hmissing : c ∉ entity.commandMap.keys) :
    getCommandDocstring w [.cobject pointer, .str c] = (.undefined, w) := by
  have hsub := StdMap.subscript_of_not_mem _ _ hmissing
  simp only [getCommandDocstring, PyArg_ParseTuple_Os, hentity, hsub]
  simp [deref]

/-- The entity `a1` and the absent name `nonexistent`. -/
theorem getCommandDocstring_missing_witness :
    getCommandDocstring adderWorld [.cobject 10, .str "nonexistent"] =
      (.undefined, adderWorld) :=
  getCommandDocstring_missing adderWorld 10 adder "nonexistent" rfl (by decide)

/-- For an entity and a name present in its command mapping, `getCommandDocstring`
returns that command's docstring and leaves the world unchanged. -/
theorem getCommandDocstring_present {σ : Type} (w : World σ) (pointer : Addr)
    (entity : Entity) (c : String) (command : Addr) (cmd : Command σ)
    (hentity : deref w.entities pointer = some entity)
    (hfind : entity.commandMap.find? c = some command)
    (hcmd : deref w.commands command = some cmd) :
    getCommandDocstring w [.cobject pointer, .str c] =
      (.returns (some (.str cmd.docstring)), w) := by
  have hsub := StdMap.subscript_of_find? _ _ _ hfind
  simp only [getCommandDocstring, PyArg_ParseTuple_Os, hentity, hsub, hcmd]

/-- The docstring of the command `add` of `a1`. -/
theorem getCommandDocstring_present_witness :
    getCommandDocstring adderWorld [.cobject 10, .str "add"] =
      (.returns (some (.str addCommand.docstring)), adderWorld) :=
  getCommandDocstring_present adderWorld 10 adder "add" 20 addCommand rfl rfl rfl

/-- A `NULL` return of `getName`, `getSignal`, `listCommands`,
`getCommandDocstring`, `display`, `create` or `executeCommand` always comes
with the error indicator set, whatever the arguments. -/
theorem null_return_records_error {σ : Type} (B : Bridge) (newEntity : Factory σ)
    (w : World σ) (args : List PyObject) :
    ((getName w args).1 = .returns none → (getName w args).2.pyErr.isSome = true) ∧
    ((getSignal w args).1 = .returns none → (getSignal w args).2.pyErr.isSome = true) ∧
    ((listCommands w args).1 = .returns none →
      (listCommands w args).2.pyErr.isSome = true) ∧
    ((getCommandDocstring w args).1 = .returns none →
      (getCommandDocstring w args).2.pyErr.isSome = true) ∧
    ((display w args).1 = .returns none → (display w args).2.pyErr.isSome = true) ∧
    ((create newEntity w args).1 = .returns none →
      (create newEntity w args).2.pyErr.isSome = true) ∧
    ((executeCommand B w args).1 = .returns none →
      (executeCommand B w args).2.pyErr.isSome = true) := by
  refine ⟨?_, ?_, ?_, ?_, ?_, ?_, ?_⟩
  · unfold getName
    repeat' (first | split | dsimp only)
    all_goals simp [World.PyErr_SetString]
  · unfold getSignal
    repeat' (first | split | dsimp only)
    all_goals simp [World.PyErr_SetString]
  · unfold listCommands returnTuple
    repeat' (first | split | dsimp only)
    all_goals simp [World.PyErr_SetString]
  · unfold getCommandDocstring
    repeat' (first | split | dsimp only)
    all_goals simp [World.PyErr_SetString]
  · unfold display
    repeat' (first | split | dsimp only)
    all_goals simp [World.PyErr_SetString]
  · unfold create
    repeat' (first | split | dsimp only)
    all_goals simp [World.PyErr_SetString]
  · unfold executeCommand bindAndExecute
    repeat' (first | split | dsimp only)
    all_goals simp [World.PyErr_SetString]

theorem fillSignals_spec (entries : List (String × Addr)) :
    ∀ (filled : List (Option PyObject)),
      fillSignals (filled ++ List.replicate entries.length none) filled.length entries =
        filled ++ entries.map (fun it => some (PyObject.cobject it.2)) := by
  induction entries with
  | nil => intro filled; simp [fillSignals]
  | cons it rest ih =>
    intro filled
    have hset : PyTuple_SET_ITEM (filled ++ List.replicate (it :: rest).length none)
        filled.length (.cobject it.2) =
        (filled ++ [some (PyObject.cobject it.2)]) ++ List.replicate rest.length none := by
      simp [PyTuple_SET_ITEM, List.replicate_succ]
    have hlen : filled.length + 1 = (filled ++ [some (PyObject.cobject it.2)]).length := by
      simp
    rw [fillSignals, hset, hlen, ih]
    simp

/-- For an entity, `listSignals` returns the tuple of its signal handles, one per
entry of the signal mapping in iteration order (the empty tuple for an empty
mapping), and leaves the world unchanged. -/
theorem listSignals_handles {σ : Type} (w : World σ) (pointer : Addr) (entity : Entity)
    (hentity : deref w.entities pointer = some entity) :
    listSignals w [.cobject pointer] =
      (.returns (some (.tuple (entity.signalMap.entries.map
        (fun it => PyObject.cobject it.2)))), w) := by
  have hfill := fillSignals_spec entity.signalMap.entries []
  simp only [List.nil_append, List.length_nil] at hfill
  have hmap : entity.signalMap.entries.map (fun it => some (PyObject.cobject it.2)) =
      (entity.signalMap.entries.map (fun it => PyObject.cobject it.2)).map some := by
    simp [List.map_map, Function.comp_def]
  simp only [listSignals, PyArg_ParseTuple_O, hentity, PyTuple_New, StdMap.size, hfill,
    returnTuple, hmap, filledItems_map_some]

/-- The one signal of `a1`. -/
theorem listSignals_handles_witness :
    listSignals adderWorld [.cobject 10] =
      (.returns (some (.tuple (adder.signalMap.entries.map
        (fun it => PyObject.cobject it.2)))), adderWorld) :=
  listSignals_handles adderWorld 10 adder rfl

/-- When the action throws something that is not a `std::exception`, after a
full conversion of the arguments, the handler of `executeCommand` does not
match: the exception leaves the function and no Python error is recorded by
the call. -/
theorem executeCommand_foreign_exception_escapes {σ : Type} (B : Bridge) (w : World σ)
    (pointer : Addr) (entity : Entity) (c : String) (command : Addr) (cmd : Command σ)
    (items : List PyObject) (values : List Value) (exc : CppException) (ext : σ)
    (hentity : deref w.entities pointer = some entity)
    (hfind : entity.commandMap.find? c = some command)
    (hcmd : deref w.commands command = some cmd)
    (hlen : items.length = cmd.valueTypes.length)
    (hvalues : values.length = items.length)
    (hconv : ConvertsBelow B items cmd.valueTypes values values.length)
    (htypes : values.map Value.type = cmd.valueTypes)
    (hexec : cmd.doExecute values w.ext = (.error exc, ext))
    (hforeign : exc.isStd = false) :
    let r := executeCommand B w [.cobject pointer, .str c, .tuple items]
    r.1 = .throws exc ∧ r.2.pyErr = w.pyErr := by
  intro r
  simp only [r]
  rw [executeCommand_converted B w pointer entity c command cmd items values hentity hfind
    hcmd hlen hvalues hconv]
  simp [bindAndExecute, setParameterValues_ok cmd values htypes, Command.execute,
    World.record, World.storeCommand, hexec, hforeign]

/-- The command `raise` of `a1` throws a foreign object. -/
theorem executeCommand_foreign_exception_escapes_witness :
    let r := executeCommand simpleBridge adderWorld [.cobject 10, .str "raise", .tuple []]
    r.1 = .throws .foreign ∧ r.2.pyErr = adderWorld.pyErr :=
  executeCommand_foreign_exception_escapes simpleBridge adderWorld 10 adder "raise" 22
    raiseCommand [] [] .foreign 0 rfl rfl rfl rfl rfl
    (by intro i hi; exact absurd hi (Nat.not_lt_zero i))
    rfl rfl rfl

end DynamicGraphPython
